import Mathlib

/-!
Verification of the slide-deck presentation controller (src/app.js).

The navigator is embedded as a state machine: the mutable fields of the
`PresentationApp` class become an `AppState` record, the DOM slide panels
become a list of booleans (membership of the `active` class), and the
`setTimeout` continuations become explicit pending-continuation counters
(`pendingSettles` for the 50 ms settle continuation of `goToSlide`,
`pendingChartInits` for the 200 ms chart-render continuation scheduled at
settle time when the current slide is 8).  Running a scheduled settle
continuation is a separate step of the machine (`NavOp.settle`).
-/

/-- Navigation state of the `PresentationApp` class: `currentSlide`,
`totalSlides` and `isTransitioning` are the fields of the constructor,
`slides` records which slide panels carry the `active` class, and the two
counters record scheduled-but-not-yet-run `setTimeout` continuations. -/
structure AppState where
  currentSlide : Nat
  totalSlides : Nat
  isTransitioning : Bool
  slides : List Bool
  pendingSettles : Nat
  pendingChartInits : Nat
deriving Repr, DecidableEq

/-- Embeds `getCurrentSlide()` (src/app.js line 284). -/
def getCurrentSlide (s : AppState) : Nat := s.currentSlide

/-- Embeds `getTotalSlides()` (src/app.js line 288). -/
def getTotalSlides (s : AppState) : Nat := s.totalSlides

/-- Embeds the synchronous part of `goToSlide(slideNumber)` (src/app.js
lines 102-130): guard on range and `isTransitioning`; then set the flag,
remove the `active` class from the old slide if present (`List.set` out of
range is a silent no-op, matching the `if (this.slides[...])` check),
update `currentSlide`, and schedule the settle continuation. -/
def goToSlide (s : AppState) (slideNumber : Int) : AppState :=
  if slideNumber < 1 ∨ slideNumber > (s.totalSlides : Int) ∨ s.isTransitioning then
    s
  else
    { s with
      isTransitioning := true
      slides := s.slides.set (s.currentSlide - 1) false
      currentSlide := slideNumber.toNat
      pendingSettles := s.pendingSettles + 1 }

/-- Embeds `nextSlide()` (src/app.js lines 84-91). -/
def nextSlide (s : AppState) : AppState :=
  if s.isTransitioning ∨ s.currentSlide ≥ s.totalSlides then s
  else goToSlide s ((s.currentSlide : Int) + 1)

/-- Embeds `previousSlide()` (src/app.js lines 93-100). -/
def previousSlide (s : AppState) : AppState :=
  if s.isTransitioning ∨ s.currentSlide ≤ 1 then s
  else goToSlide s ((s.currentSlide : Int) - 1)

/-- Embeds `setSlide(slideNumber)` (src/app.js line 292), which just
delegates to `goToSlide`. -/
def setSlide (s : AppState) (slideNumber : Int) : AppState :=
  goToSlide s slideNumber

/-- Embeds `showCurrentSlide()` (src/app.js lines 132-142): remove the
`active` class from every slide, then add it to the slide at index
`currentSlide - 1` if present (again `List.set` out of range is a no-op). -/
def showCurrentSlide (s : AppState) : AppState :=
  { s with slides := (s.slides.map (fun _ => false)).set (s.currentSlide - 1) true }

/-- Embeds the body of the settle continuation scheduled by `goToSlide`
(src/app.js lines 118-129): show the current slide, and if the current
slide is 8 schedule the chart-render continuation; finally clear
`isTransitioning`.  (`updateSlideCounter` and `updateNavigationButtons`
only write derived text to the DOM and carry no model state.)  Consuming
the scheduled continuation decrements `pendingSettles`. -/
def runSettle (s : AppState) : AppState :=
  let s1 := showCurrentSlide s
  let s2 := if s1.currentSlide = 8 then
      { s1 with pendingChartInits := s1.pendingChartInits + 1 }
    else s1
  { s2 with isTransitioning := false, pendingSettles := s2.pendingSettles - 1 }

/-- Events the navigator can process: the three public navigation
operations, and the event loop running one scheduled settle continuation. -/
inductive NavOp where
  | next
  | prev
  | goTo (n : Int)
  | settle
deriving Repr, DecidableEq

/-- One step of the navigator.  A `settle` event only does something when a
settle continuation is actually pending. -/
def step (s : AppState) : NavOp → AppState
  | NavOp.next => nextSlide s
  | NavOp.prev => previousSlide s
  | NavOp.goTo n => goToSlide s n
  | NavOp.settle => if s.pendingSettles > 0 then runSettle s else s

/-- Runs a sequence of events. -/
def run (s : AppState) (ops : List NavOp) : AppState := ops.foldl step s

/-- Embeds the constructor together with `init()` (src/app.js lines 2-28):
`currentSlide = 1`, `totalSlides = 12`, `isTransitioning = false`, no chart
continuation pending (the startup chart check fires only when the deck
opens on slide 8), and `showCurrentSlide()` is called once.  The slide
panel list comes from the DOM and is a parameter. -/
def initState (slides : List Bool) : AppState :=
  let s0 : AppState :=
    { currentSlide := 1
      totalSlides := 12
      isTransitioning := false
      slides := slides
      pendingSettles := 0
      pendingChartInits := 0 }
  let s1 := showCurrentSlide s0
  if s1.currentSlide = 8 then
    { s1 with pendingChartInits := s1.pendingChartInits + 1 }
  else s1

/-! Range invariant for `currentSlide`. -/

/-- The invariant `1 ≤ currentSlide ≤ totalSlides`. -/
def SlideInv (s : AppState) : Prop :=
  1 ≤ s.currentSlide ∧ s.currentSlide ≤ s.totalSlides

lemma goToSlide_slideInv (s : AppState) (n : Int) (h : SlideInv s) :
    SlideInv (goToSlide s n) := by
  unfold goToSlide
  split
  · exact h
  · rename_i hc
    push_neg at hc
    obtain ⟨h1, h2, _⟩ := hc
    constructor <;> simp <;> omega

lemma runSettle_currentSlide (s : AppState) :
    (runSettle s).currentSlide = s.currentSlide := by
  simp only [runSettle, showCurrentSlide]
  split <;> rfl

lemma runSettle_totalSlides (s : AppState) :
    (runSettle s).totalSlides = s.totalSlides := by
  simp only [runSettle, showCurrentSlide]
  split <;> rfl

lemma step_slideInv (s : AppState) (op : NavOp) (h : SlideInv s) :
    SlideInv (step s op) := by
  cases op with
  | next =>
    show SlideInv (nextSlide s)
    unfold nextSlide
    split
    · exact h
    · exact goToSlide_slideInv _ _ h
  | prev =>
    show SlideInv (previousSlide s)
    unfold previousSlide
    split
    · exact h
    · exact goToSlide_slideInv _ _ h
  | goTo n => exact goToSlide_slideInv _ _ h
  | settle =>
    show SlideInv (if s.pendingSettles > 0 then runSettle s else s)
    split
    · unfold SlideInv
      rw [runSettle_currentSlide, runSettle_totalSlides]
      exact h
    · exact h

lemma run_slideInv (s : AppState) (ops : List NavOp) (h : SlideInv s) :
    SlideInv (run s ops) := by
  induction ops generalizing s with
  | nil => exact h
  | cons op ops ih => exact ih _ (step_slideInv _ _ h)

lemma initState_slideInv (slides : List Bool) : SlideInv (initState slides) := by
  unfold initState showCurrentSlide SlideInv
  norm_num

/-- C1: for every sequence of calls to advance (`nextSlide`), retreat
(`previousSlide`), jump (`goToSlide`/`setSlide`) and settle continuations,
starting from the initial state with `currentSlide = 1` and
`totalSlides = 12`, the field `currentSlide` stays within
`[1, totalSlides]` at all times (quantifying over all event sequences
covers every intermediate moment). -/
theorem claim1_currentSlide_in_range (slides : List Bool) (ops : List NavOp) :
    1 ≤ (run (initState slides) ops).currentSlide ∧
    (run (initState slides) ops).currentSlide ≤ (run (initState slides) ops).totalSlides :=
  run_slideInv _ _ (initState_slideInv slides)

/-- C2: every navigation operation invoked while `isTransitioning = true`
returns the state completely unchanged — in particular `pendingSettles`
and `pendingChartInits` are unchanged, so no new continuation is
scheduled. -/
theorem claim2_transition_guard_noop (s : AppState) (h : s.isTransitioning = true) :
    nextSlide s = s ∧ previousSlide s = s ∧ ∀ n : Int, goToSlide s n = s := by
  refine ⟨?_, ?_, ?_⟩
  · simp [nextSlide, h]
  · simp [previousSlide, h]
  · intro n
    simp [goToSlide, h]

theorem claim2_witness :
    nextSlide ⟨2, 12, true, [false, true], 1, 0⟩ = ⟨2, 12, true, [false, true], 1, 0⟩ ∧
    previousSlide ⟨2, 12, true, [false, true], 1, 0⟩ = ⟨2, 12, true, [false, true], 1, 0⟩ ∧
    goToSlide ⟨2, 12, true, [false, true], 1, 0⟩ 5 = ⟨2, 12, true, [false, true], 1, 0⟩ := by
  obtain ⟨h1, h2, h3⟩ := claim2_transition_guard_noop ⟨2, 12, true, [false, true], 1, 0⟩ rfl
  exact ⟨h1, h2, h3 5⟩

/-- C3: when not transitioning, `nextSlide` at `currentSlide = totalSlides`
and `previousSlide` at `currentSlide = 1` both leave the state completely
unchanged (in particular no settle continuation is scheduled). -/
theorem claim3_boundary_noop (s t : AppState)
    (hs : s.isTransitioning = false) (ht : t.isTransitioning = false)
    (hTop : s.currentSlide = s.totalSlides) (hBot : t.currentSlide = 1) :
    nextSlide s = s ∧ previousSlide t = t := by
  constructor
  · simp [nextSlide, hTop]
  · simp [previousSlide, hBot]

theorem claim3_witness :
    nextSlide ⟨12, 12, false, [], 0, 0⟩ = ⟨12, 12, false, [], 0, 0⟩ ∧
    previousSlide ⟨1, 12, false, [], 0, 0⟩ = ⟨1, 12, false, [], 0, 0⟩ :=
  claim3_boundary_noop ⟨12, 12, false, [], 0, 0⟩ ⟨1, 12, false, [], 0, 0⟩ rfl rfl rfl rfl

/-- C4: `goToSlide` with a valid target while not transitioning updates
`currentSlide` to the target immediately: right after the synchronous part
returns, `getCurrentSlide` already yields the destination, while
`isTransitioning` is still `true` and the settle continuation is merely
scheduled (pending), not yet run. -/
theorem claim4_immediate_update (s : AppState) (n : Int)
    (hT : s.isTransitioning = false) (h1 : 1 ≤ n) (h2 : n ≤ (s.totalSlides : Int)) :
    getCurrentSlide (goToSlide s n) = n.toNat ∧
    (goToSlide s n).isTransitioning = true ∧
    (goToSlide s n).pendingSettles = s.pendingSettles + 1 := by
  have hcond : ¬(n < 1 ∨ n > (s.totalSlides : Int) ∨ s.isTransitioning) := by
    push_neg
    exact ⟨by omega, by omega, by simp [hT]⟩
  rw [goToSlide, if_neg hcond]
  exact ⟨rfl, rfl, rfl⟩

theorem claim4_witness :
    getCurrentSlide (goToSlide ⟨1, 12, false, [], 0, 0⟩ 7) = (7 : Int).toNat ∧
    (goToSlide ⟨1, 12, false, [], 0, 0⟩ 7).isTransitioning = true ∧
    (goToSlide ⟨1, 12, false, [], 0, 0⟩ 7).pendingSettles = 0 + 1 :=
  claim4_immediate_update ⟨1, 12, false, [], 0, 0⟩ 7 rfl (by decide) (by decide)

/-- C5: `goToSlide` called with the already-current slide, while not
transitioning, is not a no-op: it sets `isTransitioning`, schedules the
settle continuation, and when the current slide is the trigger slide 8,
running that settle continuation schedules a chart re-render. -/
theorem claim5_jump_same_slide_full_protocol (s : AppState)
    (hT : s.isTransitioning = false) (h1 : 1 ≤ s.currentSlide)
    (h2 : s.currentSlide ≤ s.totalSlides) :
    goToSlide s (s.currentSlide : Int) ≠ s ∧
    (goToSlide s (s.currentSlide : Int)).isTransitioning = true ∧
    (goToSlide s (s.currentSlide : Int)).pendingSettles = s.pendingSettles + 1 ∧
    (s.currentSlide = 8 →
      (runSettle (goToSlide s (s.currentSlide : Int))).pendingChartInits =
        (goToSlide s (s.currentSlide : Int)).pendingChartInits + 1) := by
  have hcond : ¬((s.currentSlide : Int) < 1 ∨ (s.currentSlide : Int) > (s.totalSlides : Int) ∨
      s.isTransitioning) := by
    push_neg
    exact ⟨by omega, by omega, by simp [hT]⟩
  rw [goToSlide, if_neg hcond]
  refine ⟨?_, rfl, rfl, ?_⟩
  · intro heq
    have := congrArg AppState.isTransitioning heq
    simp [hT] at this
  · intro h8
    simp [runSettle, showCurrentSlide, h8]

theorem claim5_witness :
    goToSlide ⟨8, 12, false, [], 0, 0⟩ ((8 : Nat) : Int) ≠ ⟨8, 12, false, [], 0, 0⟩ ∧
    (goToSlide ⟨8, 12, false, [], 0, 0⟩ ((8 : Nat) : Int)).isTransitioning = true ∧
    (goToSlide ⟨8, 12, false, [], 0, 0⟩ ((8 : Nat) : Int)).pendingSettles = 0 + 1 ∧
    ((8 : Nat) = 8 →
      (runSettle (goToSlide ⟨8, 12, false, [], 0, 0⟩ ((8 : Nat) : Int))).pendingChartInits =
        (goToSlide ⟨8, 12, false, [], 0, 0⟩ ((8 : Nat) : Int)).pendingChartInits + 1) :=
  claim5_jump_same_slide_full_protocol ⟨8, 12, false, [], 0, 0⟩ rfl (by decide) (by decide)

/-! Active-marker invariant: after every settle, exactly one slide panel
carries the `active` class, namely the one at `currentSlide`. -/

lemma count_true_map_false (l : List Bool) :
    (l.map (fun _ => false)).count true = 0 := by
  induction l with
  | nil => rfl
  | cons b t ih => simpa [List.count_cons] using ih

lemma count_true_replicate_set (n i : Nat) (h : i < n) :
    ((List.replicate n false).set i true).count true = 1 := by
  induction n generalizing i with
  | zero => omega
  | succ m ih =>
    cases i with
    | zero =>
      simp [List.replicate_succ, List.count_cons, List.count_replicate]
    | succ j =>
      rw [List.replicate_succ, List.set_cons_succ]
      simp [List.count_cons, ih j (by omega)]

lemma count_true_set_true (l : List Bool) (i : Nat) (h : i < l.length) :
    ((l.map (fun _ => false)).set i true).count true = 1 := by
  rw [List.map_const' l false]
  exact count_true_replicate_set l.length i h

lemma get_set_true (l : List Bool) (i j : Nat) (hi : i < l.length)
    (hj : j < ((l.map (fun _ => false)).set i true).length) :
    ((l.map (fun _ => false)).set i true).get ⟨j, hj⟩ = true ↔ j = i := by
  rw [List.get_eq_getElem]
  by_cases hji : j = i
  · subst hji
    simp
  · rw [List.getElem_set_ne (fun h => hji h.symm)]
    simp [List.getElem_map, hji]

/-- A settled state has exactly one active slide, at `currentSlide`.
Together with the range and length facts this is preserved by every step. -/
def ActiveInv (s : AppState) : Prop :=
  s.totalSlides = 12 ∧ 1 ≤ s.currentSlide ∧ s.currentSlide ≤ 12 ∧ 12 ≤ s.slides.length ∧
  (s.isTransitioning = false →
    s.slides.count true = 1 ∧
    ∀ (j : Nat) (hj : j < s.slides.length),
      s.slides.get ⟨j, hj⟩ = true ↔ j = s.currentSlide - 1)

lemma goToSlide_activeInv (s : AppState) (n : Int) (h : ActiveInv s) :
    ActiveInv (goToSlide s n) := by
  unfold goToSlide
  split
  · exact h
  · rename_i hc
    push_neg at hc
    obtain ⟨hn1, hn2, _⟩ := hc
    obtain ⟨h12, hc1, hc2, hlen, _⟩ := h
    rw [h12] at hn2
    refine ⟨h12, by simp; omega, by simp; omega, ?_, ?_⟩
    · simpa [List.length_set] using hlen
    · intro hfalse
      simp at hfalse

lemma showCurrentSlide_settled (s : AppState)
    (hc1 : 1 ≤ s.currentSlide) (hc2 : s.currentSlide ≤ 12)
    (hlen : 12 ≤ s.slides.length) :
    (showCurrentSlide s).slides.count true = 1 ∧
    ∀ (j : Nat) (hj : j < (showCurrentSlide s).slides.length),
      (showCurrentSlide s).slides.get ⟨j, hj⟩ = true ↔ j = s.currentSlide - 1 := by
  have hidx : s.currentSlide - 1 < s.slides.length := by omega
  constructor
  · exact count_true_set_true _ _ hidx
  · intro j hj
    exact get_set_true _ _ j hidx _

lemma runSettle_activeInv (s : AppState) (h : ActiveInv s) :
    ActiveInv (runSettle s) := by
  obtain ⟨h12, hc1, hc2, hlen, _⟩ := h
  have hset := showCurrentSlide_settled s hc1 hc2 hlen
  simp only [runSettle]
  split <;>
  · refine ⟨h12, hc1, hc2, ?_, fun _ => hset⟩
    simpa [showCurrentSlide, List.length_set] using hlen

lemma step_activeInv (s : AppState) (op : NavOp) (h : ActiveInv s) :
    ActiveInv (step s op) := by
  cases op with
  | next =>
    show ActiveInv (nextSlide s)
    unfold nextSlide
    split
    · exact h
    · exact goToSlide_activeInv _ _ h
  | prev =>
    show ActiveInv (previousSlide s)
    unfold previousSlide
    split
    · exact h
    · exact goToSlide_activeInv _ _ h
  | goTo n => exact goToSlide_activeInv _ _ h
  | settle =>
    show ActiveInv (if s.pendingSettles > 0 then runSettle s else s)
    split
    · exact runSettle_activeInv _ h
    · exact h

lemma run_activeInv (s : AppState) (ops : List NavOp) (h : ActiveInv s) :
    ActiveInv (run s ops) := by
  induction ops generalizing s with
  | nil => exact h
  | cons op ops ih => exact ih _ (step_activeInv _ _ h)

lemma initState_eq (slides : List Bool) :
    initState slides =
      { currentSlide := 1, totalSlides := 12, isTransitioning := false,
        slides := (slides.map (fun _ => false)).set 0 true,
        pendingSettles := 0, pendingChartInits := 0 } :=
  rfl

lemma initState_activeInv (slides : List Bool) (hlen : 12 ≤ slides.length) :
    ActiveInv (initState slides) := by
  have hidx : (0 : Nat) < slides.length := by omega
  rw [initState_eq]
  refine ⟨rfl, le_refl 1, by norm_num, ?_, fun _ => ⟨?_, ?_⟩⟩
  · show 12 ≤ ((slides.map (fun _ => false)).set 0 true).length
    simpa using hlen
  · exact count_true_set_true slides 0 hidx
  · intro j hj
    exact get_set_true slides 0 j hidx _

/-- C6: after any settled (non-transitioning) reachable state — given that
the slide panel list has at least `totalSlides = 12` entries — exactly one
slide carries the `active` marker, and it is the slide at position
`currentSlide` (index `currentSlide - 1` in the zero-based panel list). -/
theorem claim6_unique_active_slide (slides : List Bool) (ops : List NavOp)
    (hlen : 12 ≤ slides.length)
    (hsettled : (run (initState slides) ops).isTransitioning = false) :
    (run (initState slides) ops).slides.count true = 1 ∧
    ∀ (j : Nat) (hj : j < (run (initState slides) ops).slides.length),
      (run (initState slides) ops).slides.get ⟨j, hj⟩ = true ↔
        j = (run (initState slides) ops).currentSlide - 1 :=
  (run_activeInv _ ops (initState_activeInv slides hlen)).2.2.2.2 hsettled

theorem claim6_witness :
    (run (initState (List.replicate 12 false)) [NavOp.goTo 3, NavOp.settle]).slides.count true = 1 ∧
    ∀ (j : Nat) (hj : j < (run (initState (List.replicate 12 false)) [NavOp.goTo 3, NavOp.settle]).slides.length),
      (run (initState (List.replicate 12 false)) [NavOp.goTo 3, NavOp.settle]).slides.get ⟨j, hj⟩ = true ↔
        j = (run (initState (List.replicate 12 false)) [NavOp.goTo 3, NavOp.settle]).currentSlide - 1 :=
  claim6_unique_active_slide (List.replicate 12 false) [NavOp.goTo 3, NavOp.settle]
    (by decide) (by decide)

/-!
Chart renderer (src/app.js lines 165-281).  The chart library is an
external collaborator; a constructed chart is a live handle until its
`destroy()` is called.  `chartRef` embeds whether the field
`this.bookmakerChart` is non-null, and `liveHandles` counts charts that
have been constructed and not yet destroyed.  Construction may throw; the
outcome is a parameter of the embedding, and the `try`/`catch` of the
source is the `match` below — the embedded function returns a plain
`ChartState`, never an exception, which is theorem C8's "not propagated to
the caller".
-/

/-- Chart-renderer state: `chartRef` is `this.bookmakerChart !== null`,
`liveHandles` counts constructed-but-not-destroyed chart instances. -/
structure ChartState where
  chartRef : Bool
  liveHandles : Nat
deriving Repr, DecidableEq

/-- Embeds `new Chart(ctx, config)` (src/app.js line 200): either yields a
handle or throws, according to the environment flag `ctorFails`. -/
def chartConstruct (ctorFails : Bool) : Except String Unit :=
  if ctorFails then Except.error "Error creating chart" else Except.ok ()

/-- Static dataset keys (src/app.js lines 182-191). -/
def labels : List String :=
  ["Pinnacle", "Thunderpick", "Bet365", "Betway", "888Sport", "Unibet"]

/-- Series `avg_margin`, aligned with `labels` (src/app.js line 192). -/
def marginData : List ℚ := [172/1000, 156/1000, 180/1000, 176/1000, 204/1000, 178/1000]

/-- Series `variance`, aligned with `labels` (src/app.js line 193). -/
def varianceData : List ℚ := [99/1000, 116/1000, 134/1000, 147/1000, 149/1000, 164/1000]

/-- Embeds `initializeBookmakerChart()` (src/app.js lines 165-281), the
spec's `renderBookmakerChart`: if the canvas is missing, a logged no-op;
otherwise destroy and clear an existing handle, then try to construct a
new chart — on success store the new handle, on failure catch the error
and leave the cleared reference. -/
def renderBookmakerChart (canvasFound ctorFails : Bool) (s : ChartState) : ChartState :=
  if !canvasFound then
    s
  else
    let s1 : ChartState :=
      if s.chartRef then { chartRef := false, liveHandles := s.liveHandles - 1 } else s
    match chartConstruct ctorFails with
    | Except.ok _ => { chartRef := true, liveHandles := s1.liveHandles + 1 }
    | Except.error _ => s1

/-- The handle reference is live exactly when it is non-null. -/
def HandleInv (s : ChartState) : Prop :=
  s.liveHandles = if s.chartRef then 1 else 0

lemma renderBookmakerChart_handleInv (canvasFound ctorFails : Bool) (s : ChartState)
    (h : HandleInv s) : HandleInv (renderBookmakerChart canvasFound ctorFails s) := by
  unfold HandleInv at h ⊢
  unfold renderBookmakerChart chartConstruct
  cases canvasFound <;> cases ctorFails <;> cases hcr : s.chartRef <;>
    simp_all

/-- A fresh page has a null chart reference and no live chart. -/
def initChartState : ChartState := ⟨false, 0⟩

/-- Runs a sequence of `renderBookmakerChart` calls, each in its own
environment (canvas found or not, construction throwing or not). -/
def runRenders (calls : List (Bool × Bool)) : ChartState :=
  calls.foldl (fun s c => renderBookmakerChart c.1 c.2 s) initChartState

lemma runRenders_handleInv (calls : List (Bool × Bool)) : HandleInv (runRenders calls) := by
  suffices h : ∀ s : ChartState, HandleInv s →
      HandleInv (calls.foldl (fun s c => renderBookmakerChart c.1 c.2 s) s) by
    exact h initChartState rfl
  induction calls with
  | nil => exact fun s hs => hs
  | cons c cs ih =>
    exact fun s hs => ih _ (renderBookmakerChart_handleInv c.1 c.2 s hs)

/-- C7: after any sequence of `renderBookmakerChart` calls, at most one
live chart handle exists — a prior handle is destroyed and the reference
cleared before a new chart is constructed, so the handle count always
equals 1 when the reference is set and 0 when it is null, and in
particular never reaches 2. -/
theorem claim7_at_most_one_chart_handle (calls : List (Bool × Bool)) :
    (runRenders calls).liveHandles = (if (runRenders calls).chartRef then 1 else 0) ∧
    (runRenders calls).liveHandles ≤ 1 := by
  have h := runRenders_handleInv calls
  unfold HandleInv at h
  refine ⟨h, ?_⟩
  rw [h]
  split <;> norm_num

/-- C8: with the canvas present, a failed construction is caught — the
embedded call still returns a state (nothing is propagated) — and leaves
zero live handles with the reference null, while a successful call leaves
exactly one live handle with the reference set. -/
theorem claim8_chart_error_handling (s : ChartState) (fails : Bool)
    (hinv : HandleInv s) :
    (renderBookmakerChart true fails s).liveHandles = (if fails then 0 else 1) ∧
    (renderBookmakerChart true fails s).chartRef = !fails := by
  unfold HandleInv at hinv
  unfold renderBookmakerChart chartConstruct
  cases fails <;> cases hcr : s.chartRef <;> simp_all

theorem claim8_witness :
    (renderBookmakerChart true true ⟨true, 1⟩).liveHandles = (if true then 0 else 1) ∧
    (renderBookmakerChart true true ⟨true, 1⟩).chartRef = !true :=
  claim8_chart_error_handling ⟨true, 1⟩ true rfl

/-!
Arbitrage utility (src/app.js lines 380-390).  JavaScript numbers are
embedded as rationals; on the inputs the claims touch, every operation the
function performs is exact in both semantics.  The function returns the
number `0` in one branch and the string `profit.toFixed(2)` in the other,
so its return type is embedded as a sum of the two kinds of values.
-/

/-- A JavaScript value returned by `calculateArbitrageProfit`: either a
number or a string. -/
inductive JsValue where
  | num (x : ℚ)
  | str (s : String)
deriving Repr, DecidableEq

/-- Prints a number of hundredths with exactly two decimal digits. -/
def fixedString (n : Int) : String :=
  let sign := if n < 0 then "-" else ""
  let m := n.natAbs
  let r := m % 100
  let rs := if r < 10 then "0" ++ toString r else toString r
  sign ++ toString (m / 100) ++ "." ++ rs

/-- Embeds `Number.prototype.toFixed(2)`: round to the nearest multiple of
1/100, ties toward the larger value, and print with exactly two decimal
digits. -/
def toFixed2 (x : ℚ) : String := fixedString ⌊x * 100 + 1 / 2⌋

/-- Embeds `DataUtils.calculateArbitrageProfit(odds1, odds2)` (src/app.js
lines 380-390). -/
def calculateArbitrageProfit (odds1 odds2 : ℚ) : JsValue :=
  let impliedProb1 := 1 / odds1
  let impliedProb2 := 1 / odds2
  let totalImpliedProb := impliedProb1 + impliedProb2
  if totalImpliedProb < 1 then
    let profit := (1 - totalImpliedProb) / totalImpliedProb * 100
    JsValue.str (toFixed2 profit)
  else
    JsValue.num 0

lemma calcArb_of_lt (o1 o2 : ℚ) (h : 1 / o1 + 1 / o2 < 1) :
    calculateArbitrageProfit o1 o2 =
      JsValue.str (toFixed2 ((1 - (1 / o1 + 1 / o2)) / (1 / o1 + 1 / o2) * 100)) := by
  simp only [calculateArbitrageProfit]
  rw [if_pos h]

lemma calcArb_of_ge (o1 o2 : ℚ) (h : ¬(1 / o1 + 1 / o2 < 1)) :
    calculateArbitrageProfit o1 o2 = JsValue.num 0 := by
  simp only [calculateArbitrageProfit]
  rw [if_neg h]

lemma toFixed2_five : toFixed2 5 = "5.00" := by
  have h : ⌊(5 : ℚ) * 100 + 1 / 2⌋ = 500 := by norm_num
  rw [toFixed2, h]
  rfl

/-- C9: `calculateArbitrageProfit` returns the number 0 whenever the
implied probabilities `1/odds1 + 1/odds2` sum to at least 1; otherwise the
profit quantity `((1 - sum) / sum) * 100` is strictly positive and is
returned (formatted to two decimals).  In particular the call at
`(2.0, 2.0)` returns 0 and the call at `(2.10, 2.10)` returns the value
5.00, approximately 5.0. -/
theorem claim9_arbitrage_profit (odds1 odds2 : ℚ) (h1 : 0 < odds1) (h2 : 0 < odds2) :
    (1 ≤ 1 / odds1 + 1 / odds2 → calculateArbitrageProfit odds1 odds2 = JsValue.num 0) ∧
    (1 / odds1 + 1 / odds2 < 1 →
      0 < (1 - (1 / odds1 + 1 / odds2)) / (1 / odds1 + 1 / odds2) * 100 ∧
      calculateArbitrageProfit odds1 odds2 =
        JsValue.str (toFixed2 ((1 - (1 / odds1 + 1 / odds2)) / (1 / odds1 + 1 / odds2) * 100))) ∧
    calculateArbitrageProfit 2 2 = JsValue.num 0 ∧
    calculateArbitrageProfit (21 / 10) (21 / 10) = JsValue.str "5.00" := by
  refine ⟨?_, ?_, ?_, ?_⟩
  · intro h
    exact calcArb_of_ge _ _ (not_lt.mpr h)
  · intro h
    have hp : 0 < 1 / odds1 + 1 / odds2 :=
      add_pos (one_div_pos.mpr h1) (one_div_pos.mpr h2)
    have h1p : 0 < 1 - (1 / odds1 + 1 / odds2) := by linarith
    exact ⟨mul_pos (div_pos h1p hp) (by norm_num), calcArb_of_lt _ _ h⟩
  · exact calcArb_of_ge 2 2 (by norm_num)
  · rw [calcArb_of_lt (21 / 10) (21 / 10) (by norm_num)]
    have harg : ((1 : ℚ) - (1 / (21 / 10) + 1 / (21 / 10))) /
        (1 / (21 / 10) + 1 / (21 / 10)) * 100 = 5 := by norm_num
    rw [harg, toFixed2_five]

theorem claim9_witness :
    ((1 : ℚ) ≤ 1 / 2 + 1 / 2 → calculateArbitrageProfit 2 2 = JsValue.num 0) ∧
    ((1 : ℚ) / 2 + 1 / 2 < 1 →
      0 < ((1 : ℚ) - (1 / 2 + 1 / 2)) / (1 / 2 + 1 / 2) * 100 ∧
      calculateArbitrageProfit 2 2 =
        JsValue.str (toFixed2 (((1 : ℚ) - (1 / 2 + 1 / 2)) / (1 / 2 + 1 / 2) * 100))) ∧
    calculateArbitrageProfit 2 2 = JsValue.num 0 ∧
    calculateArbitrageProfit (21 / 10) (21 / 10) = JsValue.str "5.00" :=
  claim9_arbitrage_profit 2 2 (by norm_num) (by norm_num)

/-- C10: the return type of `calculateArbitrageProfit` differs between its
branches — when the implied probabilities sum below 1 it returns a string
(the profit formatted by `toFixed(2)`), when they sum to 1 or more it
returns the number 0 — so a caller never receives a nonzero numeric
profit.  The hypotheses restrict to nonzero odds, where the rational
embedding agrees with the source's arithmetic. -/
theorem claim10_arbitrage_return_type (odds1 odds2 : ℚ)
    (h1 : odds1 ≠ 0) (h2 : odds2 ≠ 0) :
    (1 / odds1 + 1 / odds2 < 1 →
      ∃ t : String, calculateArbitrageProfit odds1 odds2 = JsValue.str t) ∧
    (1 ≤ 1 / odds1 + 1 / odds2 → calculateArbitrageProfit odds1 odds2 = JsValue.num 0) ∧
    ∀ q : ℚ, calculateArbitrageProfit odds1 odds2 = JsValue.num q → q = 0 := by
  refine ⟨?_, ?_, ?_⟩
  · intro h
    exact ⟨_, calcArb_of_lt _ _ h⟩
  · intro h
    exact calcArb_of_ge _ _ (not_lt.mpr h)
  · intro q hq
    by_cases h : 1 / odds1 + 1 / odds2 < 1
    · rw [calcArb_of_lt _ _ h] at hq
      exact absurd hq (by simp)
    · rw [calcArb_of_ge _ _ h] at hq
      injection hq with h0
      exact h0.symm

theorem claim10_witness :
    ((1 : ℚ) / (21 / 10) + 1 / 4 < 1 →
      ∃ t : String, calculateArbitrageProfit (21 / 10) 4 = JsValue.str t) ∧
    ((1 : ℚ) ≤ 1 / (21 / 10) + 1 / 4 →
      calculateArbitrageProfit (21 / 10) 4 = JsValue.num 0) ∧
    ∀ q : ℚ, calculateArbitrageProfit (21 / 10) 4 = JsValue.num q → q = 0 :=
  claim10_arbitrage_return_type (21 / 10) 4 (by norm_num) (by norm_num)
